import Mathlib

/-!
Shallow embedding of `rpi_ky_040/_ky_040.py`: the quadrature decode state
machine (`RotaryEncoderState`, `_did_dial_move`, the two edge handlers),
the `start()` initialization path, the callback-dispatch handlers, the
worker thread loop of `CallbackThread`, and the reference-counted shared
worker lifecycle of `callback_queue`.

Machine levels are `Bool` (the Python code coerces GPIO reads with
`bool(...)`).  Exceptions become `Except`/result values, stateful methods
become explicit state passing, and the deque is its Python list of
elements (index 0 = left end, so `appendleft` is `cons` and `pop` removes
the last element).
-/

/-- The mutable decode state (`RotaryEncoderState` dataclass, lines 41-46):
the two most recently observed phase levels and the last confirmed resting
level.  The `state_lock` field is a mutex and carries no data; it is
omitted here because the handlers are modelled as atomic steps (the code
holds the lock for the whole read-decide-update sequence). -/
structure RotaryEncoderState where
  clk_state : Bool
  dt_state : Bool
  last_resting_state : Bool
deriving Repr, DecidableEq

/-- Initial state of the dataclass: every field defaults to `False`. -/
def initialEncoderState : RotaryEncoderState :=
  { clk_state := false, dt_state := false, last_resting_state := false }

/-- `RotaryEncoder._is_resting_state` (line 101-102): both phases read the
same level. -/
def is_resting_state (s : RotaryEncoderState) : Bool :=
  s.clk_state == s.dt_state

/-- The error raised by `_current_resting_state` when the phases disagree
(`NotInRestingStateError`, lines 26-27). -/
inductive StartFailure where
  | notInRestingState
deriving Repr, DecidableEq

/-- `RotaryEncoder._current_resting_state` (lines 104-107): the common
level when at rest, otherwise the `NotInRestingStateError` exception. -/
def current_resting_state (s : RotaryEncoderState) : Except StartFailure Bool :=
  if is_resting_state s then Except.ok s.clk_state
  else Except.error StartFailure.notInRestingState

/-- `RotaryEncoder._did_dial_move` (lines 109-113): when at rest and the
resting level differs from `last_resting_state`, advance
`last_resting_state` to the new resting level and report a move; otherwise
report no move and leave the state untouched.  (The guard
`_is_resting_state()` short-circuits, so the `_current_resting_state()`
calls inside the branch cannot raise; they return `clk_state`.) -/
def did_dial_move (s : RotaryEncoderState) : Bool × RotaryEncoderState :=
  if is_resting_state s && (s.clk_state != s.last_resting_state) then
    (true, { s with last_resting_state := s.clk_state })
  else
    (false, s)

/-- A decoded direction event. -/
inductive Direction where
  | clockwise
  | counterClockwise
deriving Repr, DecidableEq

/-- `RotaryEncoder._on_clk_changed` (lines 115-122): refresh both phase
levels from the pins (`clkLevel`, `dtLevel` are the fresh reads), run
`_did_dial_move`, and when it reports a move decide a counter-clockwise
event (the code then hands `on_counter_clockwise_turn` to the callback
handler). -/
def on_clk_changed (clkLevel dtLevel : Bool) (s : RotaryEncoderState) :
    RotaryEncoderState × Option Direction :=
  let s1 := { s with dt_state := dtLevel, clk_state := clkLevel }
  let md := did_dial_move s1
  (md.2, if md.1 then some Direction.counterClockwise else none)

/-- `RotaryEncoder._on_dt_changed` (lines 124-131): same refresh-and-decide
sequence, deciding a clockwise event on a move. -/
def on_dt_changed (clkLevel dtLevel : Bool) (s : RotaryEncoderState) :
    RotaryEncoderState × Option Direction :=
  let s1 := { s with dt_state := dtLevel, clk_state := clkLevel }
  let md := did_dial_move s1
  (md.2, if md.1 then some Direction.clockwise else none)

/-- Which phase pin an edge notification came from. -/
inductive Phase where
  | clk
  | dt
deriving Repr, DecidableEq

/-- Dispatch to the handler registered for the phase (lines 84-85 register
`_on_clk_changed` for the CLK pin and `_on_dt_changed` for the DT pin). -/
def on_edge (p : Phase) (clkLevel dtLevel : Bool) (s : RotaryEncoderState) :
    RotaryEncoderState × Option Direction :=
  match p with
  | Phase.clk => on_clk_changed clkLevel dtLevel s
  | Phase.dt => on_dt_changed clkLevel dtLevel s

/-!
Simulation harness mirroring `tests/gpio_mock.py`: `set_pin` updates a
pin's stored level and, if the level actually changed, invokes the edge
callback registered for that pin; `run_sequence` walks the paired level
strings one time step at a time, setting the CLK pin first, then the DT
pin, exactly as `run_sequence((clk_pin, dt_pin), ...)` does with its
`zip` order.  The encoder's handlers read both pins fresh, after the
update.
-/

/-- Mock-GPIO world: the two pin levels, the encoder state behind them,
and the direction events decided so far, oldest first. -/
structure SimState where
  clkPin : Bool
  dtPin : Bool
  enc : RotaryEncoderState
  events : List Direction
deriving Repr, DecidableEq

/-- The world right after a successful `start()` from levels (0, 0): the
mock's pins default to 0 and `start` records resting level 0. -/
def initialSim : SimState :=
  { clkPin := false, dtPin := false, enc := initialEncoderState, events := [] }

/-- `gpio_mock.set_pin` for one phase pin: a no-op when the level is
unchanged, otherwise store the level and fire the registered edge handler,
which reads both pins' current levels. -/
def set_pin (p : Phase) (level : Bool) (st : SimState) : SimState :=
  let cur := match p with | Phase.clk => st.clkPin | Phase.dt => st.dtPin
  if level == cur then st
  else
    let st1 := match p with
      | Phase.clk => { st with clkPin := level }
      | Phase.dt => { st with dtPin := level }
    let r := on_edge p st1.clkPin st1.dtPin st1.enc
    { st1 with enc := r.1, events := st1.events ++ r.2.toList }

/-- `gpio_mock.run_sequence` over the pair `(clk_pin, dt_pin)`: per time
step, set the CLK pin to its level, then the DT pin to its level. -/
def run_sequence (steps : List (Bool × Bool)) (st : SimState) : SimState :=
  steps.foldl (fun st cd => set_pin Phase.dt cd.2 (set_pin Phase.clk cd.1 st)) st

/-- Count of events of one direction in a run. -/
def countDir (d : Direction) (evs : List Direction) : Nat :=
  (evs.filter (fun e => e == d)).length

/-!
`RotaryEncoder.start` (lines 74-85).  The method, for a given frozen
config `(clk_pin, dt_pin, sw_pin, ...)`, runs in order: configure the CLK
and DT pins as pull-down inputs, read both levels into the state, compute
`_current_resting_state()` into `last_resting_state` (raising
`NotInRestingStateError` when the two reads disagree, which aborts the
method before any `add_event_detect` call), then register edge detection
for the CLK pin and then the DT pin.  No statement of the method mentions
`sw_pin`, `on_button_down` or `on_button_up`; in fact no code in the
module ever reads those three fields.  The model returns the final
encoder state together with the list of pins for which edge detection was
registered, in registration order. -/

/-- `RotaryEncoder.start` as a function of the pin numbers of the config
and the two initial level reads.  The second component is the effect log
of `add_event_detect` registrations actually performed, in order; it is
produced whether or not the method raises. -/
def start (clk_pin dt_pin : Nat) (sw_pin : Option Nat)
    (clkLevel dtLevel : Bool) :
    Except StartFailure RotaryEncoderState × List Nat :=
  let _unused := sw_pin
  let s1 := { initialEncoderState with
    clk_state := clkLevel, dt_state := dtLevel }
  match current_resting_state s1 with
  | Except.error e => (Except.error e, [])
  | Except.ok lvl =>
    (Except.ok { s1 with last_resting_state := lvl }, [clk_pin, dt_pin])

/-!
Dispatch strategies.  `RotaryEncoder._callback_handler` defaults to
`same_thread_callback_handler` (line 71).  The `rotary_encoder` context
manager (lines 141-200) picks the handler from its `callback_handling`
parameter, whose default is `CallbackHandling.SPAWN_THREAD` (line 151):
`GLOBAL_WORKER_THREAD` uses the shared queue's `appendleft`,
`LOCAL_WORKER_THREAD` a fresh `CallbackThread`'s `queue.appendleft`,
`SAME_THREAD` the inline handler, and every other value (i.e.
`SPAWN_THREAD`) `spawn_thread_callback_handler`, which starts a new
daemon thread per event (lines 56-58).
-/

/-- The `CallbackHandling` enum (lines 134-138). -/
inductive CallbackHandling where
  | same_thread
  | global_worker_thread
  | local_worker_thread
  | spawn_thread
deriving Repr, DecidableEq

/-- The four concrete callback handlers a `RotaryEncoder` can be wired
with. -/
inductive HandlerKind where
  | sameThreadHandler
  | spawnThreadHandler
  | globalWorkerQueueAppendleft
  | localWorkerQueueAppendleft
deriving Repr, DecidableEq

/-- Default of the `_callback_handler` field of the `RotaryEncoder`
dataclass (line 71): `same_thread_callback_handler`. -/
def defaultEncoderCallbackHandler : HandlerKind :=
  HandlerKind.sameThreadHandler

/-- Default of the `callback_handling` keyword of the `rotary_encoder`
factory (line 151). -/
def defaultCallbackHandling : CallbackHandling :=
  CallbackHandling.spawn_thread

/-- The handler the `rotary_encoder` factory wires for each
`callback_handling` value (lines 163-195): the two worker variants pass
a queue's `appendleft`, `SAME_THREAD` the inline handler, and the `else`
branch (`SPAWN_THREAD`) the spawning handler. -/
def factoryHandler : CallbackHandling → HandlerKind
  | CallbackHandling.global_worker_thread =>
      HandlerKind.globalWorkerQueueAppendleft
  | CallbackHandling.local_worker_thread =>
      HandlerKind.localWorkerQueueAppendleft
  | CallbackHandling.same_thread => HandlerKind.sameThreadHandler
  | CallbackHandling.spawn_thread => HandlerKind.spawnThreadHandler

/-- A user callback, abstracted to an identity plus whether invoking it
raises an exception. -/
inductive CbOutcome where
  | ok
  | exc
deriving Repr, DecidableEq

/-- A user callback as data: its identity and its behaviour when
invoked. -/
structure Cb where
  id : Nat
  outcome : CbOutcome
deriving Repr, DecidableEq

/-- `same_thread_callback_handler` (lines 52-53): a bare `callback()`.
Whatever the callback does — including raising — is returned to (i.e.
propagates into) the caller. -/
def same_thread_callback_handler (c : Cb) : CbOutcome :=
  c.outcome

/-- The thread object `spawn_thread_callback_handler` creates (lines
56-58): `threading.Thread(target=callback, daemon=True)`, then
`start()`. -/
structure SpawnedThread where
  target : Cb
  daemon : Bool
  started : Bool
deriving Repr, DecidableEq

/-- `spawn_thread_callback_handler` (lines 56-58): spawn a new daemon
thread per event running the callback. -/
def spawn_thread_callback_handler (c : Cb) : SpawnedThread :=
  { target := c, daemon := true, started := true }

/-- C1: for every edge notification handled by either phase handler, after
both phase levels are refreshed a direction event is decided iff the two
fresh levels are equal and that common level differs from
`last_resting_state`; `last_resting_state` is advanced to the new common
level exactly in that case, and hence is only updated at a moment when
`clk_state == dt_state`. -/
theorem c1_detent_decision_iff_settled_change (p : Phase)
    (clkLevel dtLevel : Bool) (s : RotaryEncoderState) :
    (((on_edge p clkLevel dtLevel s).2).isSome
        = (clkLevel == dtLevel && clkLevel != s.last_resting_state))
    ∧ ((on_edge p clkLevel dtLevel s).1.last_resting_state
        = if clkLevel == dtLevel && clkLevel != s.last_resting_state
          then clkLevel else s.last_resting_state)
    ∧ ((on_edge p clkLevel dtLevel s).1.last_resting_state ≠ s.last_resting_state
        → (on_edge p clkLevel dtLevel s).1.clk_state
            = (on_edge p clkLevel dtLevel s).1.dt_state) := by
  cases p <;> cases clkLevel <;> cases dtLevel <;>
    cases s <;> rename_i c d l <;> cases c <;> cases d <;> cases l <;>
    simp [on_edge, on_clk_changed, on_dt_changed, did_dial_move,
      is_resting_state]

/-- C2: a settling move decided by the CLK handler is always reported as
counter-clockwise and one decided by the DT handler as clockwise (the
handlers dispatch `on_counter_clockwise_turn` resp. `on_clockwise_turn`);
and the literal scenario from rest (0,0) with CLK levels 0,1,1 and DT
levels 0,0,1 decides exactly 1 clockwise and 0 counter-clockwise
events. -/
theorem c2_direction_mapping_and_clockwise_scenario :
    (∀ (c d : Bool) (s : RotaryEncoderState),
        (on_clk_changed c d s).2 ≠ some Direction.clockwise
        ∧ (on_dt_changed c d s).2 ≠ some Direction.counterClockwise)
    ∧ (countDir Direction.clockwise
        (run_sequence [(false, false), (true, false), (true, true)]
          initialSim).events = 1
      ∧ countDir Direction.counterClockwise
        (run_sequence [(false, false), (true, false), (true, true)]
          initialSim).events = 0) := by
  refine ⟨fun c d s => ?_, by decide⟩
  cases c <;> cases d <;>
    cases s <;> rename_i x y l <;> cases x <;> cases y <;> cases l <;>
    simp [on_clk_changed, on_dt_changed, did_dial_move, is_resting_state]

/-- C3: `start()` with disagreeing initial CLK/DT reads returns the
`NotInRestingStateError` and registers edge detection for no pin; with
agreeing reads it records the common level as the initial resting level
and registers edge detection for the CLK pin and the DT pin. -/
theorem c3_start_requires_initial_rest (clk_pin dt_pin : Nat)
    (sw_pin : Option Nat) (clkLevel dtLevel : Bool) :
    start clk_pin dt_pin sw_pin clkLevel dtLevel
      = if clkLevel == dtLevel then
          (Except.ok
            { clk_state := clkLevel, dt_state := dtLevel,
              last_resting_state := clkLevel },
            [clk_pin, dt_pin])
        else
          (Except.error StartFailure.notInRestingState, []) := by
  cases clkLevel <;> cases dtLevel <;> rfl

/-- C4 evidence: a successful `start()` on a config with button pin 3
registers edge detection for the phase pins only; pin 3 gets no
registration (and the module never reads `on_button_down`/`on_button_up`
at all), contradicting the claim that the button pin follows the same
edge-registration pattern. -/
theorem c4_start_ignores_sw_pin :
    start 1 2 (some 3) false false
      = (Except.ok initialEncoderState, [1, 2])
    ∧ 3 ∉ (start 1 2 (some 3) false false).2 := by
  constructor
  · rfl
  · decide

/-- C10: a directly constructed `RotaryEncoder` defaults its
`_callback_handler` to the inline same-thread handler, while the
`rotary_encoder` factory defaults `callback_handling` to `SPAWN_THREAD`
and therefore wires `spawn_thread_callback_handler`, which runs each
event's callback on a newly spawned daemon thread. -/
theorem c10_default_dispatch_strategies :
    defaultEncoderCallbackHandler = HandlerKind.sameThreadHandler
    ∧ defaultCallbackHandling = CallbackHandling.spawn_thread
    ∧ factoryHandler defaultCallbackHandling
        = HandlerKind.spawnThreadHandler
    ∧ ∀ c : Cb, (spawn_thread_callback_handler c).daemon = true
        ∧ (spawn_thread_callback_handler c).target = c
        ∧ (spawn_thread_callback_handler c).started = true :=
  ⟨rfl, rfl, rfl, fun _ => ⟨rfl, rfl, rfl⟩⟩

/-!
The callback deque (`collections.deque`, line 206) and the worker loop
(`CallbackThread.run`, lines 209-229).  The deque is modelled as the
Python list of its elements with index 0 the left end.  Producers insert
with `queue.appendleft` (lines 166 and 178), so the newest element sits
at the head; the worker removes with `queue.pop`, which takes the element
at the right end — the oldest one — and raises `IndexError` on an empty
deque.
-/

/-- `deque.appendleft`: insert at the left end. -/
def appendleft {α : Type} (x : α) (q : List α) : List α :=
  x :: q

/-- `deque.pop`: remove and return the element at the right end, or
`none` for the `IndexError` on an empty deque. -/
def dequePop {α : Type} (q : List α) : Option (α × List α) :=
  match q.reverse with
  | [] => none
  | x :: rest => some (x, rest.reverse)

theorem dequePop_length_lt {α : Type} {q : List α} {p : α × List α}
    (h : dequePop q = some p) : p.2.length < q.length := by
  unfold dequePop at h
  cases hr : q.reverse with
  | nil => rw [hr] at h; exact absurd h (by simp)
  | cons y rest =>
    rw [hr] at h
    have hlen : q.length = rest.length + 1 := by
      have := congrArg List.length hr
      simpa using this
    have hp : p.2 = rest.reverse := by
      simp only [Option.some.injEq] at h
      rw [← h]
    rw [hp, hlen]
    simp

/-- The order in which repeated `pop` calls empty a deque: pop the right
end, then continue on the rest until the deque is empty. -/
def popOrder {α : Type} (q : List α) : List α :=
  match h : dequePop q with
  | none => []
  | some p => p.1 :: popOrder p.2
termination_by q.length
decreasing_by exact dequePop_length_lt h

theorem dequePop_append {α : Type} (q : List α) (x : α) :
    dequePop (q ++ [x]) = some (x, q) := by
  unfold dequePop
  simp

theorem popOrder_nil {α : Type} : popOrder ([] : List α) = [] := by
  rw [popOrder.eq_def]
  rfl

theorem popOrder_append {α : Type} (q : List α) (x : α) :
    popOrder (q ++ [x]) = x :: popOrder q := by
  rw [popOrder.eq_def]
  split
  · rename_i h
    rw [dequePop_append] at h
    exact absurd h (by simp)
  · rename_i p h
    rw [dequePop_append] at h
    have hp := Option.some.inj h
    rw [← hp]

theorem popOrder_eq_reverse {α : Type} (q : List α) :
    popOrder q = q.reverse := by
  induction q using List.reverseRecOn with
  | nil => exact popOrder_nil
  | append_singleton l a ih =>
    rw [popOrder_append, ih]
    simp

/-- The `try: callback() except Exception: traceback.print_exc()` wrapper
around every invocation in `CallbackThread.run` (lines 216-219 and
226-229): the callback is invoked, a traceback is printed iff it raised,
and control always returns to the loop.  The log entry records the
callback's identity and whether a traceback was printed. -/
def invokeCaught (c : Cb) : Nat × Bool :=
  (c.id, c.outcome == CbOutcome.exc)

/-- One iteration of the main `while self._is_running` loop of
`CallbackThread.run` (lines 210-219): `pop` from the right; on
`IndexError` pass (idle, queue unchanged, nothing invoked); otherwise
invoke the popped callback under the catch-all.  The iteration always
completes — a raising callback never exits the loop. -/
def run_iteration (q : List Cb) : List Cb × Option (Nat × Bool) :=
  match dequePop q with
  | none => (q, none)
  | some p => (p.2, some (invokeCaught p.1))

/-- The second loop of `CallbackThread.run` (lines 220-229), entered once
`_is_running` is false: repeatedly `pop` and invoke under the catch-all
until `IndexError`, then return.  Result: the invocation log, oldest
callback first. -/
def drain_loop (q : List Cb) : List (Nat × Bool) :=
  match h : dequePop q with
  | none => []
  | some p => invokeCaught p.1 :: drain_loop p.2
termination_by q.length
decreasing_by exact dequePop_length_lt h

/-- What has happened by the time `CallbackThread.stop` (lines 231-233)
returns, given the queue contents `q` pending when the loop observes the
cleared `_is_running` flag: `stop` sets the flag and `join`s, and `join`
returns only once `run` has returned, which happens exactly after the
drain loop has finished; so the drain's full invocation log precedes the
thread's termination. -/
structure StopOutcome where
  invoked : List (Nat × Bool)
  thread_terminated : Bool
deriving Repr, DecidableEq

/-- `CallbackThread.stop` under the sequential model: the result visible
to the caller when `stop()` returns. -/
def stopCallbackThread (q : List Cb) : StopOutcome :=
  { invoked := drain_loop q, thread_terminated := true }

theorem drain_loop_eq_popOrder (q : List Cb) :
    drain_loop q = (popOrder q).map invokeCaught := by
  induction q using List.reverseRecOn with
  | nil =>
    rw [drain_loop.eq_def]
    rw [popOrder_nil]
    rfl
  | append_singleton l a ih =>
    rw [drain_loop.eq_def, popOrder_append]
    split
    · rename_i h
      rw [dequePop_append] at h
      exact absurd h (by simp)
    · rename_i p h
      rw [dequePop_append] at h
      have hp := Option.some.inj h
      rw [← hp]
      simp only [List.map_cons]
      exact congrArg _ ih

/-- C6: once stop is requested, the drain loop invokes every callback
still pending, oldest (right end) first, discarding none — the log is
exactly the queue read oldest-to-newest, it has one entry per pending
callback, and it is a permutation of the queue's entries — and `stop()`
returns only once the thread has terminated after that full drain. -/
theorem c6_stop_drains_all_pending (q : List Cb) :
    stopCallbackThread q
      = { invoked := q.reverse.map invokeCaught, thread_terminated := true }
    ∧ (stopCallbackThread q).invoked.length = q.length
    ∧ List.Perm (stopCallbackThread q).invoked (q.map invokeCaught) := by
  have hlog : stopCallbackThread q
      = { invoked := q.reverse.map invokeCaught, thread_terminated := true } := by
    unfold stopCallbackThread
    rw [drain_loop_eq_popOrder, popOrder_eq_reverse]
  refine ⟨hlog, ?_, ?_⟩
  · rw [hlog]
    simp
  · rw [hlog]
    simpa using List.Perm.map invokeCaught (List.reverse_perm q)

/-- Modelled from the spec's words (§3 CallbackQueue): a strict FIFO
queue delivers callbacks in exactly insertion order. -/
def fifoDeliveryOrder {α : Type} (inserted : List α) : List α :=
  inserted

/-- The queue a producer builds by `appendleft`-ing `inserted` (oldest
first) into an initially empty deque. -/
def producerBuild {α : Type} (inserted : List α) : List α :=
  inserted.foldl (fun q x => appendleft x q) []

theorem foldl_appendleft {α : Type} (xs acc : List α) :
    xs.foldl (fun q x => appendleft x q) acc = xs.reverse ++ acc := by
  induction xs generalizing acc with
  | nil => simp
  | cons x rest ih =>
    simp only [List.foldl_cons, List.reverse_cons, ih, appendleft]
    simp

/-- C9: the appendleft/pop discipline is observationally a strict FIFO:
for every sequence of insertions into an initially empty deque, repeated
`pop` delivers the callbacks in exactly insertion order, i.e. it refines
the spec's FIFO enqueue/dequeue queue. -/
theorem c9_appendleft_pop_is_fifo {α : Type} (inserted : List α) :
    popOrder (producerBuild inserted) = fifoDeliveryOrder inserted := by
  unfold producerBuild fifoDeliveryOrder
  rw [foldl_appendleft, popOrder_eq_reverse]
  simp

/-- Modelled from the spec's words (§7 user callback failure): a dispatch
handler contains callback exceptions at the dispatch boundary iff it
returns normally to its caller for every callback, raising ones
included. -/
def containsCallbackFailures (h : Cb → CbOutcome) : Prop :=
  ∀ c : Cb, h c = CbOutcome.ok

/-- C7 counterexample: the inline same-thread handler does not contain
callback exceptions — dispatching a raising callback returns the raise to
the caller (the interrupt-handler / hardware-layer code), refuting the
claim for the inline dispatch variant. -/
theorem c7_counterexample_inline_propagates :
    ¬ containsCallbackFailures same_thread_callback_handler := by
  intro h
  have := h { id := 0, outcome := CbOutcome.exc }
  exact absurd this (by decide)

/-- C7 amended: exceptions are contained at the *worker-thread* dispatch
boundary — both worker loops invoke each callback under a catch-all that
reports the traceback, and the loop then continues with the rest of the
queue, in the main loop and in the drain alike — whereas the inline
same-thread handler returns the callback's outcome, raise included,
directly to its caller. -/
theorem c7_worker_contains_inline_propagates (q : List Cb) (c : Cb)
    (q' : List Cb) (h : dequePop q = some (c, q')) :
    run_iteration q = (q', some (c.id, c.outcome == CbOutcome.exc))
    ∧ drain_loop q = (c.id, c.outcome == CbOutcome.exc) :: drain_loop q'
    ∧ (∀ d : Cb, same_thread_callback_handler d = d.outcome) := by
  refine ⟨?_, ?_, fun d => rfl⟩
  · unfold run_iteration
    rw [h]
    rfl
  · rw [drain_loop.eq_def, h]
    rfl

/-- Witness for C7's amended theorem at a concrete queue holding a
raising callback (id 0) as oldest entry and a well-behaved one (id 1)
behind it: the worker reports the raise and continues to invoke id 1. -/
theorem c7_worker_contains_inline_propagates_witness :
    run_iteration [{ id := 1, outcome := CbOutcome.ok },
        { id := 0, outcome := CbOutcome.exc }]
      = ([{ id := 1, outcome := CbOutcome.ok }], some (0, true))
    ∧ drain_loop [{ id := 1, outcome := CbOutcome.ok },
        { id := 0, outcome := CbOutcome.exc }]
      = (0, true) :: drain_loop [{ id := 1, outcome := CbOutcome.ok }]
    ∧ ∀ d : Cb, same_thread_callback_handler d = d.outcome := by
  exact c7_worker_contains_inline_propagates
    [{ id := 1, outcome := CbOutcome.ok }, { id := 0, outcome := CbOutcome.exc }]
    { id := 0, outcome := CbOutcome.exc }
    [{ id := 1, outcome := CbOutcome.ok }]
    (by decide)

/-!
The shared global worker (`callback_queue`, lines 241-257) over the
module globals `_global_callback_thread`, `_usage_counter`,
`_usage_counter_lock` (lines 236-238).  Sequential (one context-manager
entry or exit at a time) semantics; `starts`/`stops` count how many times
a worker thread has been created resp. stopped, to state the
exactly-once-per-transition claims.
-/

/-- The module-global lifecycle state: `_usage_counter` (a Python int),
whether `_global_callback_thread` is not `None`, and transition
counters. -/
structure WorkerLifecycle where
  usage_counter : Int
  worker_running : Bool
  starts : Nat
  stops : Nat
deriving Repr, DecidableEq

/-- Module state at import time: counter 0, no thread (lines 236-237). -/
def initialLifecycle : WorkerLifecycle :=
  { usage_counter := 0, worker_running := false, starts := 0, stops := 0 }

/-- `callback_queue` entry (lines 244-248): increment `_usage_counter`
under `_usage_counter_lock`, then — after the `with` block has released
the lock — if `_global_callback_thread is None`, create and start a new
`CallbackThread`. -/
def acquire_queue (w : WorkerLifecycle) : WorkerLifecycle :=
  let w1 := { w with usage_counter := w.usage_counter + 1 }
  if w1.worker_running then w1
  else { w1 with worker_running := true, starts := w1.starts + 1 }

/-- `callback_queue` exit (lines 252-257): under `_usage_counter_lock`,
decrement `_usage_counter` and, if it reached 0, stop (drain + join) the
thread and set the global back to `None`. -/
def release_queue (w : WorkerLifecycle) : WorkerLifecycle :=
  let w1 := { w with usage_counter := w.usage_counter - 1 }
  if w1.usage_counter = 0 then
    { w1 with worker_running := false, stops := w1.stops + 1 }
  else w1

/-- An entry into or exit out of the `callback_queue` context manager. -/
inductive LifecycleOp where
  | acquire
  | release
deriving Repr, DecidableEq

def applyLifecycleOp (w : WorkerLifecycle) : LifecycleOp → WorkerLifecycle
  | LifecycleOp.acquire => acquire_queue w
  | LifecycleOp.release => release_queue w

def runLifecycle (ops : List LifecycleOp) (w : WorkerLifecycle) :
    WorkerLifecycle :=
  ops.foldl applyLifecycleOp w

/-- Releases are well bracketed: the context manager guarantees each exit
matches an earlier entry, so a release happens only while `avail` (the
number of entries not yet exited) is positive. -/
def wellBracketed : Int → List LifecycleOp → Bool
  | _, [] => true
  | n, LifecycleOp.acquire :: rest => wellBracketed (n + 1) rest
  | n, LifecycleOp.release :: rest => decide (0 < n) && wellBracketed (n - 1) rest

/-- The lifecycle invariant: the counter never goes negative and the
worker thread exists iff the counter is positive. -/
def LifecycleInv (w : WorkerLifecycle) : Prop :=
  0 ≤ w.usage_counter ∧ (w.worker_running = true ↔ 0 < w.usage_counter)

theorem acquire_queue_inv {w : WorkerLifecycle} (hw : LifecycleInv w) :
    LifecycleInv (acquire_queue w)
    ∧ (acquire_queue w).usage_counter = w.usage_counter + 1
    ∧ ((acquire_queue w).starts = w.starts + 1 ↔ w.usage_counter = 0)
    ∧ (acquire_queue w).worker_running = true := by
  obtain ⟨hnn, hiff⟩ := hw
  cases hwr : w.worker_running with
  | true =>
    have hpos : 0 < w.usage_counter := hiff.mp hwr
    simp [LifecycleInv, acquire_queue, hwr] <;> omega
  | false =>
    have hz : w.usage_counter = 0 := by
      by_contra hne
      have hp : 0 < w.usage_counter := by omega
      exact absurd (hiff.mpr hp) (by simp [hwr])
    simp [LifecycleInv, acquire_queue, hwr, hz]

theorem release_queue_inv {w : WorkerLifecycle} (hw : LifecycleInv w)
    (hpos : 0 < w.usage_counter) :
    LifecycleInv (release_queue w)
    ∧ (release_queue w).usage_counter = w.usage_counter - 1
    ∧ ((release_queue w).stops = w.stops + 1 ↔ w.usage_counter = 1)
    ∧ ((release_queue w).worker_running = false ↔ w.usage_counter = 1) := by
  obtain ⟨hnn, hiff⟩ := hw
  have hr : w.worker_running = true := hiff.mpr hpos
  by_cases h1 : w.usage_counter - 1 = 0
  · simp [LifecycleInv, release_queue, h1, hr] <;> omega
  · simp [LifecycleInv, release_queue, h1, hr] <;> omega

theorem runLifecycle_inv (ops : List LifecycleOp) (w : WorkerLifecycle)
    (hw : LifecycleInv w)
    (hwb : wellBracketed w.usage_counter ops = true) :
    LifecycleInv (runLifecycle ops w) := by
  induction ops generalizing w with
  | nil => exact hw
  | cons op rest ih =>
    cases op with
    | acquire =>
      have hstep := acquire_queue_inv hw
      have hwb' : wellBracketed (acquire_queue w).usage_counter rest = true := by
        rw [hstep.2.1]
        exact hwb
      exact ih (acquire_queue w) hstep.1 hwb'
    | release =>
      unfold wellBracketed at hwb
      rw [Bool.and_eq_true, decide_eq_true_eq] at hwb
      have hstep := release_queue_inv hw hwb.1
      have hwb' : wellBracketed (release_queue w).usage_counter rest = true := by
        rw [hstep.2.1]
        exact hwb.2
      exact ih (release_queue w) hstep.1 hwb'

/-- One atomic statement of `callback_queue`, tagged with whether it runs
while `_usage_counter_lock` is held and whether it is the statement that
starts resp. stops the worker thread. -/
structure LifecycleStatement where
  holdsUsageLock : Bool
  startsWorker : Bool
  stopsWorker : Bool
deriving Repr, DecidableEq

/-- The statements of the acquisition path (lines 244-248) in program
order: the `_usage_counter += 1` inside `with _usage_counter_lock`, then
the `if _global_callback_thread is None: ... start()` block, which runs
after the `with` block has already released the lock. -/
def acquireStatements : List LifecycleStatement :=
  [{ holdsUsageLock := true, startsWorker := false, stopsWorker := false },
   { holdsUsageLock := false, startsWorker := true, stopsWorker := false }]

/-- The statements of the release path (lines 253-257), which sit wholly
inside `with _usage_counter_lock`: the decrement together with the
conditional stop-and-clear. -/
def releaseStatements : List LifecycleStatement :=
  [{ holdsUsageLock := true, startsWorker := false, stopsWorker := true }]

/-- Modelled from the spec's words (§3 WorkerLifecycle): the start/stop
transitions are "serialized by a dedicated lock" iff every statement that
starts or stops the worker executes while holding
`_usage_counter_lock`. -/
def transitionsSerializedByUsageLock
    (stmts : List LifecycleStatement) : Bool :=
  stmts.all fun st => !(st.startsWorker || st.stopsWorker) || st.holdsUsageLock

/-- C5 counterexample: the statement of the acquisition path that starts
the worker (the `if _global_callback_thread is None` block) runs after
the `with _usage_counter_lock` block has exited, so the start transition
is not serialized by the dedicated lock, refuting the claim as stated. -/
theorem c5_counterexample_start_outside_lock :
    transitionsSerializedByUsageLock acquireStatements = false := by
  decide

/-- C5 amended: in sequential execution from the import-time state, under
well-bracketed acquire/release traces the worker thread exists iff the
usage count is positive; each acquisition increments the count and starts
the worker exactly when no worker exists — equivalently, under the
invariant, exactly on the 0 to 1 count transition — and each release
decrements the count and stops the worker exactly on the 1 to 0
transition; the decrement-and-stop is serialized by the dedicated
`_usage_counter_lock`, but the worker-start statement runs outside it. -/
theorem c5_refcount_worker_lifecycle (ops : List LifecycleOp)
    (hwb : wellBracketed 0 ops = true) :
    ((runLifecycle ops initialLifecycle).worker_running = true
        ↔ 0 < (runLifecycle ops initialLifecycle).usage_counter)
    ∧ (∀ w : WorkerLifecycle, LifecycleInv w →
        (acquire_queue w).usage_counter = w.usage_counter + 1
        ∧ ((acquire_queue w).starts = w.starts + 1 ↔ w.usage_counter = 0)
        ∧ (acquire_queue w).worker_running = true)
    ∧ (∀ w : WorkerLifecycle, LifecycleInv w → 0 < w.usage_counter →
        (release_queue w).usage_counter = w.usage_counter - 1
        ∧ ((release_queue w).stops = w.stops + 1 ↔ w.usage_counter = 1)
        ∧ ((release_queue w).worker_running = false ↔ w.usage_counter = 1))
    ∧ transitionsSerializedByUsageLock releaseStatements = true
    ∧ transitionsSerializedByUsageLock acquireStatements = false := by
  refine ⟨?_, ?_, ?_, by decide, by decide⟩
  · have hinv : LifecycleInv initialLifecycle := by
      constructor
      · simp [initialLifecycle]
      · simp [initialLifecycle]
    exact (runLifecycle_inv ops initialLifecycle hinv hwb).2
  · intro w hw
    have h := acquire_queue_inv hw
    exact ⟨h.2.1, h.2.2.1, h.2.2.2⟩
  · intro w hw hpos
    have h := release_queue_inv hw hpos
    exact ⟨h.2.1, h.2.2.1, h.2.2.2⟩

/-- Witness for C5's amended theorem on the concrete well-bracketed trace
acquire, acquire, release, release. -/
theorem c5_refcount_worker_lifecycle_witness :
    ((runLifecycle [LifecycleOp.acquire, LifecycleOp.acquire,
        LifecycleOp.release, LifecycleOp.release]
        initialLifecycle).worker_running = true
      ↔ 0 < (runLifecycle [LifecycleOp.acquire, LifecycleOp.acquire,
        LifecycleOp.release, LifecycleOp.release]
        initialLifecycle).usage_counter)
    ∧ (∀ w : WorkerLifecycle, LifecycleInv w →
        (acquire_queue w).usage_counter = w.usage_counter + 1
        ∧ ((acquire_queue w).starts = w.starts + 1 ↔ w.usage_counter = 0)
        ∧ (acquire_queue w).worker_running = true)
    ∧ (∀ w : WorkerLifecycle, LifecycleInv w → 0 < w.usage_counter →
        (release_queue w).usage_counter = w.usage_counter - 1
        ∧ ((release_queue w).stops = w.stops + 1 ↔ w.usage_counter = 1)
        ∧ ((release_queue w).worker_running = false ↔ w.usage_counter = 1))
    ∧ transitionsSerializedByUsageLock releaseStatements = true
    ∧ transitionsSerializedByUsageLock acquireStatements = false :=
  c5_refcount_worker_lifecycle
    [LifecycleOp.acquire, LifecycleOp.acquire,
      LifecycleOp.release, LifecycleOp.release]
    (by decide)

/-- One edge notification as the decode path sees it: which phase's
handler fires and the two fresh levels the handler reads back. -/
structure EdgeStep where
  phase : Phase
  clk : Bool
  dt : Bool
deriving Repr, DecidableEq

/-- Process a sequence of edge notifications through the registered
handlers, collecting the decided direction events in order. -/
def runEdges : List EdgeStep → RotaryEncoderState →
    RotaryEncoderState × List Direction
  | [], s => (s, [])
  | st :: rest, s =>
    let r := on_edge st.phase st.clk st.dt s
    let k := runEdges rest r.1
    (k.1, r.2.toList ++ k.2)

theorem on_edge_no_move (p : Phase) (c d : Bool) (s : RotaryEncoderState)
    (h : c = d → c = s.last_resting_state) :
    (on_edge p c d s).2 = none
    ∧ (on_edge p c d s).1.last_resting_state = s.last_resting_state := by
  cases p <;> cases s <;> rename_i x y l <;>
    cases c <;> cases d <;> cases l <;>
    simp_all [on_edge, on_clk_changed, on_dt_changed, did_dial_move,
      is_resting_state]

/-- C8: a sequence of edge notifications in which every snapshot that is
at rest (equal fresh levels) rests at the current `last_resting_state` —
which covers both re-feeding the final levels unchanged and an excursion
away from rest returning to the same resting level — emits zero direction
events and leaves `last_resting_state` unchanged; moreover re-processing
the very levels just handled never emits a second event, because
`last_resting_state` was advanced at the moment the detent was
detected. -/
theorem c8_no_net_change_emits_no_events (steps : List EdgeStep)
    (s : RotaryEncoderState)
    (h : ∀ st ∈ steps, st.clk = st.dt → st.clk = s.last_resting_state) :
    (runEdges steps s).2 = []
    ∧ (runEdges steps s).1.last_resting_state = s.last_resting_state
    ∧ ∀ (p p' : Phase) (c d : Bool) (t : RotaryEncoderState),
        (on_edge p' c d (on_edge p c d t).1).2 = none := by
  have main : ∀ (l : List EdgeStep) (u : RotaryEncoderState),
      (∀ st ∈ l, st.clk = st.dt → st.clk = u.last_resting_state) →
      (runEdges l u).2 = []
      ∧ (runEdges l u).1.last_resting_state = u.last_resting_state := by
    intro l
    induction l with
    | nil =>
      intro u _
      exact ⟨rfl, rfl⟩
    | cons st rest ih =>
      intro u hu
      have hst := on_edge_no_move st.phase st.clk st.dt u
        (hu st (List.mem_cons_self _ _))
      have hrest : ∀ v ∈ rest, v.clk = v.dt →
          v.clk = (on_edge st.phase st.clk st.dt u).1.last_resting_state := by
        intro v hv hvd
        rw [hst.2]
        exact hu v (List.mem_cons_of_mem _ hv) hvd
      have hr := ih (on_edge st.phase st.clk st.dt u).1 hrest
      constructor
      · simp [runEdges, hst.1, hr.1]
      · simp [runEdges, hr.2, hst.2]
  refine ⟨(main steps s h).1, (main steps s h).2, ?_⟩
  intro p p' c d t
  cases p <;> cases p' <;> cases t <;> rename_i x y l <;>
    cases x <;> cases y <;> cases l <;> cases c <;> cases d <;> decide

/-- Witness for C8 at the concrete excursion from resting level 0: a CLK
edge to the unequal pair (1, 0) and a CLK edge back to (0, 0) emit no
event and leave `last_resting_state` at 0. -/
theorem c8_no_net_change_emits_no_events_witness :
    (runEdges [{ phase := Phase.clk, clk := true, dt := false },
      { phase := Phase.clk, clk := false, dt := false }]
      initialEncoderState).2 = []
    ∧ (runEdges [{ phase := Phase.clk, clk := true, dt := false },
        { phase := Phase.clk, clk := false, dt := false }]
        initialEncoderState).1.last_resting_state
      = initialEncoderState.last_resting_state
    ∧ ∀ (p p' : Phase) (c d : Bool) (t : RotaryEncoderState),
        (on_edge p' c d (on_edge p c d t).1).2 = none :=
  c8_no_net_change_emits_no_events
    [{ phase := Phase.clk, clk := true, dt := false },
      { phase := Phase.clk, clk := false, dt := false }]
    initialEncoderState (by decide)
